import Mathlib

/-!
Verification of the `surveyor` helper core (`help.py`) against its
natural-language specification.

The Python source is shallowly embedded as executable Lean definitions:

* Python scalar/collection values that flow through the option set become
  `SVal`; dictionary values stored in the survey payload become `PVal`
  (a plain value or a nested string-keyed dict, as `product_args` is).
* Python dicts are insertion-ordered association lists; `dictSet` mirrors
  `d[k] = v` (update in place if the key exists, append otherwise).
* Pythonic truthiness (`if v:`) becomes `SVal.truthy` / `PVal.truthy`.
* `sys.exit(msg)` and uncaught exceptions (`AttributeError`, `KeyError`,
  `TypeError`) become `Except.error (PyErr ...)`; attribute access on the
  argparse namespace is a fallible lookup, so the source's misspelled
  `args.ioc_file` is faithfully an `AttributeError`.
* Filesystem interaction in `build_survey`/`logger` is modelled by an
  explicit read-only `FS` value plus an effect trace (`FSEffect`),
  threaded by the small state/exception monad `M`.
-/

deriving instance DecidableEq for Except

namespace Surveyor

/-- Python values appearing in the surveyor option namespace and in the
credential / product-argument dicts: strings, lists of strings, booleans,
integers, and `None`. -/
inductive SVal where
  | s (x : String)
  | l (xs : List String)
  | b (x : Bool)
  | i (n : Int)
  | none
deriving DecidableEq, Repr

/-- Python truthiness for `SVal` (`if v:`): empty strings/lists, `False`,
`0` and `None` are falsy. -/
def SVal.truthy : SVal → Bool
  | .s x => !x.isEmpty
  | .l xs => !xs.isEmpty
  | .b x => x
  | .i n => n != 0
  | .none => false

/-- Values stored in the survey payload dict: either a plain value or a
nested string-keyed dict (the `product_args` entry). -/
inductive PVal where
  | v (x : SVal)
  | d (entries : List (String × SVal))
deriving DecidableEq, Repr

/-- Python truthiness for payload values; an empty dict is falsy. -/
def PVal.truthy : PVal → Bool
  | .v x => x.truthy
  | .d es => !es.isEmpty

/-- "Absent or empty" in the sense of the specification's pruning
invariant: `None`, the empty string, the empty list, the empty dict. -/
def PVal.isEmptyVal : PVal → Bool
  | .v .none => true
  | .v (.s x) => x.isEmpty
  | .v (.l xs) => xs.isEmpty
  | .v (.b _) => false
  | .v (.i _) => false
  | .d es => es.isEmpty

/-- Python exceptions that the helper module can surface: `sys.exit(msg)`
(`SystemExit`), a missing namespace attribute, a missing dict key, and a
`TypeError` (e.g. `set(None)`). -/
inductive PyErr where
  | systemExit (msg : String)
  | attributeError (nm : String)
  | keyError (k : String)
  | typeError (msg : String)
deriving DecidableEq, Repr

/-- The argparse namespace `args`: its `__dict__`, an insertion-ordered
association list from attribute name to value. -/
abbrev PyArgs := List (String × SVal)

/-- `getattr(args, n)`: `AttributeError` when the attribute is absent. -/
def getattrE (args : PyArgs) (n : String) : Except PyErr SVal :=
  match args.lookup n with
  | some v => Except.ok v
  | Option.none => Except.error (PyErr.attributeError n)

/-- `d[k] = val` on an insertion-ordered dict: replace in place when the
key is present, append at the end otherwise. -/
def dictSetS (d : List (String × SVal)) (k : String) (val : SVal) :
    List (String × SVal) :=
  if (d.map Prod.fst).contains k then
    d.map (fun e => if e.1 = k then (e.1, val) else e)
  else d ++ [(k, val)]

/-- One entry of `EDR_DEETS` (`help.py` lines 12-38). -/
structure EdrDetails where
  full_name : String
  required_credentials : String
  product_arguments : Option (List String)
deriving DecidableEq, Repr

/-- The backend capability registry `EDR_DEETS`; lookup of an unknown
backend id yields `Option.none` (a Python `KeyError` on subscripting). -/
def EDR_DEETS (edr : String) : Option EdrDetails :=
  if edr = "cbc" then
    some { full_name := "VMware Carbon Black Cloud Enterprise EDR (CBC)",
           required_credentials := "VMware Carbon Black Cloud Enterprise EDR requires a URL, token, and org_key or a credential file located following the documentation at: https://github.com/redcanaryco/surveyor/wiki/Getting-started",
           product_arguments := some ["device_group", "device_policy"] }
  else if edr = "cbr" then
    some { full_name := "VMware Carbon Black EDR (CBr)",
           required_credentials := "VMware Carbon Black EDR requires a URL and token or a credential file located following the documentation at: https://github.com/redcanaryco/surveyor/wiki/Getting-started",
           product_arguments := some ["sensor_group"] }
  else if edr = "cortex" then
    some { full_name := "Cortex XDR (Cortex)",
           required_credentials := "Cortex XDR requires a URL, api_key, api_key_id, and auth_type or a credential file and profile to be passed",
           product_arguments := Option.none }
  else if edr = "dfe" then
    some { full_name := "Microsoft Defender for Endpoint (DFE)",
           required_credentials := "Microsoft Defender for Endpoint requires a token or all of tenantId, appId, and appSecret, or a credential file and profile to be passed",
           product_arguments := Option.none }
  else if edr = "s1" then
    some { full_name := "SentinelOne (S1)",
           required_credentials := "SentinelOne requires a URL and token and one of the following site_ids, account_ids, or account_names, or a credential file and profile to be passed",
           product_arguments := some ["deep_visibility"] }
  else Option.none

/-- The heterogeneous `required_fields` slot of the product-argument check
result: either the backend's declared argument-name list (possibly the
Python `None`) or the literal no-arguments message. -/
inductive PARF where
  | fields (xs : Option (List String))
  | msg (s : String)
deriving DecidableEq, Repr

/-- Result dict of `check_product_args_structure`. -/
structure PAResult where
  result : Bool
  edr : String
  required_fields : PARF
  incompatible_arguments : Option (Finset String)
deriving DecidableEq

/-- `check_product_args_structure` (`help.py` lines 280-304).  The first
statement `EDR_DEETS[edr]` raises `KeyError` for an unknown backend; for a
backend whose `product_arguments` is `None` and a non-empty supplied spec,
`set(None)` on line 294 raises `TypeError`. -/
def check_product_args_structure (edr : String)
    (product_args : List (String × SVal)) : Except PyErr PAResult :=
  match EDR_DEETS edr with
  | Option.none => Except.error (PyErr.keyError edr)
  | some edr_details =>
    let base : PAResult :=
      { result := false, edr := edr_details.full_name,
        required_fields := PARF.fields edr_details.product_arguments,
        incompatible_arguments := Option.none }
    if product_args.isEmpty then
      Except.ok { base with
        result := true
        required_fields := PARF.msg "No arguments were supplied" }
    else
      match edr_details.product_arguments with
      | Option.none => Except.error (PyErr.typeError "NoneType object is not iterable")
      | some req =>
        let product_check := (product_args.map Prod.fst).toFinset
        let required_fields_set := req.toFinset
        let incompatible_arguments := required_fields_set \ product_check
        let compatible_arguments := required_fields_set ∩ product_check
        let base := if compatible_arguments.Nonempty then
            { base with result := true } else base
        let base := if incompatible_arguments.Nonempty then
            { base with incompatible_arguments := some incompatible_arguments }
          else base
        Except.ok base

/-- `product_arg_builder` (`help.py` lines 133-163): builds the
product-argument dict from the raw argparse namespace.  Only the `cbc`
branch dispatches on the backend id; the `sensor_group` and `dv` branches
fire for any other backend id whenever those flags are truthy. -/
def product_arg_builder (args : PyArgs) : Except PyErr (List (String × SVal)) := do
  let cbr_product_args := [("sensor_group", SVal.none)]
  let cbc_product_args := [("device_group", SVal.none), ("device_policy", SVal.none)]
  let s1_product_args := [("deep_visibility", SVal.none)]
  let edr ← getattrE args "edr"
  if edr = SVal.s "cbc" then do
    let device_group ← getattrE args "device_group"
    let cbc1 := if device_group.truthy then
        dictSetS cbc_product_args "device_group" device_group
      else cbc_product_args
    let device_policy ← getattrE args "device_policy"
    let cbc2 := if device_policy.truthy then
        dictSetS cbc1 "device_policy" device_policy
      else cbc1
    Except.ok (cbc2.filter (fun kv => kv.2 != SVal.none))
  else do
    let sensor_group ← getattrE args "sensor_group"
    if sensor_group.truthy then
      Except.ok ((dictSetS cbr_product_args "sensor_group" sensor_group).filter
        (fun kv => kv.2 != SVal.none))
    else do
      let dv ← getattrE args "dv"
      if dv.truthy then
        Except.ok ((dictSetS s1_product_args "deep_visibility" (SVal.b true)).filter
          (fun kv => kv.2 != SVal.none))
      else
        Except.ok []

/-- Result dict of `check_credentials_structure`: `result`, `edr` label,
and `required_fields` (a remediation string or `None`). -/
structure CredResult where
  result : Bool
  edr : String
  required_fields : Option String
deriving DecidableEq, Repr

/-- `cred_check = [k for k, v in creds.items() if v]` (line 310): the
names of the truthy credential fields, in dict order. -/
def cred_check (creds : List (String × SVal)) : List String :=
  (creds.filter (fun kv => kv.2.truthy)).map Prod.fst

/-- `check_credentials_structure` (`help.py` lines 306-333), transcribed
branch by branch.  The trailing Python `elif not EDR_DEETS.get(edr, None)`
guarantees that the final `EDR_DEETS[edr]` subscript only runs for known
backends, so the function is total. -/
def check_credentials_structure (edr : String) (creds : List (String × SVal)) :
    CredResult :=
  let cc := cred_check creds
  if (edr = "cbc" || edr = "cbr") && cc.contains "creds_file" then
    { result := true, edr := edr,
      required_fields := (EDR_DEETS edr).map EdrDetails.required_credentials }
  else if cc.contains "creds_file" && cc.contains "profile" then
    { result := true, edr := edr,
      required_fields := some "A profile and path to a credentials file argument have been supplied" }
  else
    let state : Bool :=
      if edr = "cbc" then ["url", "token", "org_key"].all cc.contains
      else if edr = "cbr" then ["url", "token"].all cc.contains
      else if edr = "cortex" then
        ["api_key", "url", "api_key_id", "auth_type"].all cc.contains
      else if edr = "dfe" then
        cc.contains "token" || ["tenantId", "appId", "appSecret"].all cc.contains
      else if edr = "s1" then
        ["url", "token"].all cc.contains &&
          ["site_ids", "account_ids", "account_names"].any cc.contains
      else false
    match EDR_DEETS edr with
    | Option.none =>
        { result := state, edr := edr ++ " is not a supported EDR",
          required_fields := Option.none }
    | some d =>
        { result := state, edr := edr,
          required_fields := some d.required_credentials }

/-- Filesystem effects performed by `build_survey`/`logger`, in program
order.  `makedirs` and `createLogFile` are the write effects (`os.makedirs`
and the `logging.FileHandler` file creation, whose name carries a
timestamp and the edr id); everything else is a read. -/
inductive FSEffect where
  | isFileCheck (p : String)
  | isDirCheck (p : String)
  | existsCheck (p : String)
  | walkDir (p : String)
  | readFile (p : String)
  | makedirs (p : String)
  | createLogFile (dir : String) (edr : SVal)
deriving DecidableEq, Repr

/-- Whether an effect creates or writes a file or directory. -/
def FSEffect.isWrite : FSEffect → Bool
  | .makedirs _ => true
  | .createLogFile _ _ => true
  | _ => false

/-- A read-only snapshot of the filesystem visible to the program:
which paths are files, which are directories, what `os.walk` yields
(pairs of root directory and contained file names, in walk order), and
the raw lines `readlines()` returns for a file. -/
structure FS where
  files : List String
  dirs : List String
  walk : String → List (String × List String)
  readLines : String → List String

/-- The execution monad for the effectful part of `help.py`: a Python
exception (`Except.error`) or a value, together with the accumulated
trace of filesystem effects. -/
def M (α : Type) : Type :=
  List FSEffect → Except PyErr α × List FSEffect

/-- Monadic return for `M`. -/
def M.pure {α : Type} (a : α) : M α := fun t => (Except.ok a, t)

/-- Monadic bind for `M`: an exception aborts the rest of the program but
keeps the effects performed so far. -/
def M.bind {α β : Type} (x : M α) (f : α → M β) : M β := fun t =>
  match x t with
  | (Except.ok a, t1) => f a t1
  | (Except.error e, t1) => (Except.error e, t1)

instance : Monad M where
  pure := M.pure
  bind := M.bind

/-- `sys.exit(msg)`: raises `SystemExit`. -/
def M.exit {α : Type} (msg : String) : M α :=
  fun t => (Except.error (PyErr.systemExit msg), t)

/-- Raise a Python exception. -/
def M.throw {α : Type} (e : PyErr) : M α := fun t => (Except.error e, t)

/-- Lift a pure fallible computation into `M` (no effects). -/
def M.lift {α : Type} (x : Except PyErr α) : M α := fun t => (x, t)

/-- `getattr` inside `M`. -/
def getattrM (args : PyArgs) (n : String) : M SVal := M.lift (getattrE args n)

/-- Coerce a value used as an `os.path` argument to a string;
non-strings raise `TypeError` as CPython's path functions do. -/
def asStr (v : SVal) : M String :=
  match v with
  | SVal.s x => M.pure x
  | _ => M.throw (PyErr.typeError "expected str")

/-- `os.path.isfile`. -/
def os_path_isfile (fs : FS) (p : String) : M Bool :=
  fun t => (Except.ok (fs.files.contains p), t ++ [FSEffect.isFileCheck p])

/-- `os.path.isdir`. -/
def os_path_isdir (fs : FS) (p : String) : M Bool :=
  fun t => (Except.ok (fs.dirs.contains p), t ++ [FSEffect.isDirCheck p])

/-- `os.path.exists`: true for files and directories. -/
def os_path_exists (fs : FS) (p : String) : M Bool :=
  fun t => (Except.ok (fs.files.contains p || fs.dirs.contains p),
            t ++ [FSEffect.existsCheck p])

/-- `os.walk`, yielding (root, filenames) pairs in walk order. -/
def os_walk (fs : FS) (p : String) : M (List (String × List String)) :=
  fun t => (Except.ok (fs.walk p), t ++ [FSEffect.walkDir p])

/-- `open(p).readlines()` (raw lines). -/
def read_lines (fs : FS) (p : String) : M (List String) :=
  fun t => (Except.ok (fs.readLines p), t ++ [FSEffect.readFile p])

/-- `logger` (`help.py` lines 257-278): configures logging, creates the
log directory (`os.makedirs(logs_dir, exist_ok=True)`, line 269) and a
timestamped `<logs_dir>/<ts>.<edr>.log` file via `logging.FileHandler`
(line 273).  `build_survey` passes `logs_dir=args.log_dir` explicitly, so
a non-string (e.g. `None`) raises `TypeError` inside `os.makedirs`.
The returned `logging.Logger` handle carries no information we track, so
the model returns `Unit`. -/
def logger (edr logs_dir : SVal) : M Unit :=
  match logs_dir with
  | SVal.s d =>
      fun t => (Except.ok (),
                t ++ [FSEffect.makedirs d, FSEffect.createLogFile d edr])
  | _ => M.throw (PyErr.typeError "makedirs argument must be str")

/-- `os.path.join` for the forward-slash paths used in this model. -/
def pyJoin (a b : String) : String := a ++ "/" ++ b

/-- `os.path.basename`. -/
def pyBasename (p : String) : String := (p.splitOn "/").getLastD ""

/-- The extension component of `os.path.splitext`: the suffix from the
last dot, except that a name whose characters before the last dot are all
dots (e.g. `.bashrc`) has no extension. -/
def splitext_ext (p : String) : String :=
  let parts := p.splitOn "."
  if parts.length ≤ 1 then ""
  else if parts.dropLast.all String.isEmpty then ""
  else "." ++ parts.getLastD ""

/-- Models `os.path.dirname(__file__)`: the directory holding the
`help.py` module (used to resolve the built-in definitions folder). -/
def module_dir : String := "surveyor"

/-- `d[k] = val` on the payload dict (`PVal` values). -/
def dictSetP (d : List (String × PVal)) (k : String) (val : PVal) :
    List (String × PVal) :=
  if (d.map Prod.fst).contains k then
    d.map (fun e => if e.1 = k then (e.1, val) else e)
  else d ++ [(k, val)]

/-- The `survey_payload` defaults dict (`help.py` line 166), in source
order.  Note the key `products_args` (sic). -/
def survey_defaults : List (String × PVal) :=
  [("prefix", PVal.v SVal.none), ("days", PVal.v SVal.none),
   ("minutes", PVal.v SVal.none), ("limit", PVal.v SVal.none),
   ("hostname", PVal.v SVal.none), ("username", PVal.v SVal.none),
   ("query", PVal.v SVal.none), ("output", PVal.v SVal.none),
   ("no_file", PVal.v (SVal.b true)), ("no_progress", PVal.v (SVal.b false)),
   ("log_dir", PVal.v SVal.none), ("log", PVal.v SVal.none),
   ("ioc_list", PVal.v SVal.none), ("ioc_source", PVal.v SVal.none),
   ("ioc_type", PVal.v SVal.none), ("definitions", PVal.v SVal.none),
   ("sigma_rules", PVal.v SVal.none), ("products_args", PVal.v SVal.none),
   ("output_format", PVal.v (SVal.s "csv"))]

/-- The copy loop (`help.py` lines 168-170): for each namespace attribute
whose name is a payload key, a non-`None` value overwrites the payload
entry in place, while a `None` value pops the entry and re-adds it at the
end with its default value (`survey_payload.pop(k)` returns the popped
default, which is then re-assigned). -/
def copy_args_into_payload (payload : List (String × PVal)) (attrs : PyArgs) :
    List (String × PVal) :=
  attrs.foldl (fun pl kv =>
    if (pl.map Prod.fst).contains kv.1 then
      if kv.2 != SVal.none then dictSetP pl kv.1 (PVal.v kv.2)
      else (pl.filter (fun en => en.1 != kv.1)) ++
        [(kv.1, (pl.lookup kv.1).getD (PVal.v SVal.none))]
    else pl) payload

/-- The precondition checks of `build_survey` (`help.py` lines 172-194),
in source order, with Python's short-circuit evaluation of `and`/`or`
made explicit.  Line 175 reads `args.ioc_file` — not the `args.iocfile`
used everywhere else in the function — so whenever an IOC file is
supplied the attribute access itself raises `AttributeError` on a
namespace that (like the rest of the function assumes) only defines
`iocfile`. -/
def bs_validate (fs : FS) (args : PyArgs) (edr : String) : M Unit :=
  M.bind (getattrM args "iocfile") fun iocfile =>
  M.bind (if iocfile.truthy then
      M.bind (getattrM args "ioctype") fun ioctype =>
      M.pure (ioctype == SVal.none)
    else M.pure false) fun c1 =>
  M.bind (if c1 then M.exit "--iocfile requires --ioctype" else M.pure ()) fun _ =>
  M.bind (if iocfile.truthy then
      M.bind (getattrM args "ioc_file") fun ioc_file =>
      M.bind (asStr ioc_file) fun p =>
      M.bind (os_path_isfile fs p) fun b =>
      M.pure (!b)
    else M.pure false) fun c2 =>
  M.bind (if c2 then M.exit "Supplied --iocfile is not a file" else M.pure ())
    fun _ =>
  M.bind (getattrM args "output") fun output =>
  M.bind (if output.truthy then M.pure true else
      M.bind (getattrM args "prefix") fun prefx => M.pure prefx.truthy) fun op =>
  M.bind (if op then
      M.bind (getattrM args "no_file") fun no_file => M.pure no_file.truthy
    else M.pure false) fun c3 =>
  M.bind (if c3 then
      M.exit "--output and --prefix cannot be used with --no-file"
    else M.pure ()) fun _ =>
  M.bind (getattrM args "days") fun days =>
  M.bind (if days.truthy then
      M.bind (getattrM args "minutes") fun minutes => M.pure minutes.truthy
    else M.pure false) fun c4 =>
  M.bind (if c4 then M.exit "--days and --minutes are mutually exclusive"
    else M.pure ()) fun _ =>
  M.bind (getattrM args "sigmarule") fun sigmarule =>
  M.bind (if sigmarule.truthy then M.pure true else
      M.bind (getattrM args "sigmadir") fun sd => M.pure sd.truthy) fun sr =>
  M.bind (if sr && edr == "cortex" then
      M.exit "Neither --sigmarule nor --sigmadir are supported by product cortex"
    else M.pure ()) fun _ =>
  M.bind (if sr && edr == "s1" then
      M.bind (getattrM args "dv") fun dv => M.pure (!dv.truthy)
    else M.pure false) fun c6 =>
  M.bind (if c6 then
      M.exit "Neither --sigmarule nor --sigmadir are supported by SentinelOne PowerQuery"
    else M.pure ()) fun _ =>
  M.bind (if sigmarule.truthy then
      M.bind (asStr sigmarule) fun p =>
      M.bind (os_path_isfile fs p) fun b => M.pure (!b)
    else M.pure false) fun c7 =>
  M.bind (if c7 then M.exit "Supplied --sigmarule is not a file" else M.pure ())
    fun _ =>
  M.bind (getattrM args "sigmadir") fun sigmadir =>
  M.bind (if sigmadir.truthy then
      M.bind (asStr sigmadir) fun p =>
      M.bind (os_path_isdir fs p) fun b => M.pure (!b)
    else M.pure false) fun c8 =>
  if c8 then M.exit "Supplied --sigmadir is not a directory" else M.pure ()

/-- `log = logger(edr=args.edr, logs_dir=args.log_dir)`
(`help.py` line 196). -/
def bs_logger (args : PyArgs) : M Unit :=
  M.bind (getattrM args "edr") fun edr =>
  M.bind (getattrM args "log_dir") fun log_dir =>
  logger edr log_dir

/-- The resolution phase of `build_survey` (`help.py` lines 198-252):
definition-file resolution (whose result list feeds only the dead local
`definition_files`, since `definitions` stays the empty dict and line 227
therefore never fires), sigma-rule collection, IOC-file loading, and the
`product_args` entry.  Takes the payload produced by the copy loop and
returns the pre-pruning payload. -/
def bs_resolve (fs : FS) (args : PyArgs) (payload0 : List (String × PVal)) :
    M (List (String × PVal)) :=
  M.bind (getattrM args "deffile") fun deffile =>
  M.bind (if deffile.truthy then
      M.bind (asStr deffile) fun dp =>
      M.bind (os_path_exists fs dp) fun ex =>
      if ex then M.pure [dp]
      else
        let repo0 := pyJoin (pyJoin module_dir "definitions") dp
        let repo_deffile := if repo0.endsWith ".json" then repo0
          else repo0 ++ ".json"
        M.bind (os_path_isfile fs repo_deffile) fun isf =>
        if isf then M.pure [repo_deffile]
        else M.exit "The deffile does not exist. Please try again."
    else M.pure ([] : List String)) fun defFiles0 =>
  M.bind (getattrM args "defdir") fun defdir =>
  M.bind (if defdir.truthy then
      M.bind (asStr defdir) fun dd =>
      M.bind (os_path_exists fs dd) fun ex =>
      if ex then
        M.bind (os_walk fs dd) fun w =>
        M.pure (defFiles0 ++ w.foldl (fun acc rd =>
          acc ++ ((rd.2.filter (fun fn => splitext_ext fn = ".json")).map
            (fun fn => pyJoin rd.1 fn))) [])
      else M.exit "The defdir does not exist. Please try again."
    else M.pure defFiles0) fun definition_files =>
  let _ := definition_files
  let definitions : List (String × SVal) := []
  let payload := if !definitions.isEmpty then
      dictSetP payload0 "definitions" (PVal.d definitions)
    else payload0
  M.bind (getattrM args "sigmarule") fun sigmarule =>
  M.bind (if sigmarule.truthy then
      M.bind (asStr sigmarule) fun p => M.pure [p]
    else M.pure ([] : List String)) fun sigmaRules0 =>
  M.bind (getattrM args "sigmadir") fun sigmadir =>
  M.bind (if sigmadir.truthy then
      M.bind (asStr sigmadir) fun dd =>
      M.bind (os_walk fs dd) fun w =>
      M.pure (sigmaRules0 ++ w.foldl (fun acc rd =>
        acc ++ ((rd.2.filter (fun fn => splitext_ext fn = ".yml")).map
          (fun fn => pyJoin rd.1 fn))) [])
    else M.pure sigmaRules0) fun sigma_rules =>
  let payload := if !sigma_rules.isEmpty then
      dictSetP payload "sigma_rules" (PVal.v (SVal.l sigma_rules))
    else payload
  M.bind (getattrM args "iocfile") fun iocfile =>
  M.bind (if iocfile.truthy then
      M.bind (asStr iocfile) fun p =>
      M.bind (read_lines fs p) fun data =>
      let basename := pyBasename p
      let ioc_list := data.map String.trim
      M.bind (getattrM args "ioctype") fun ioctype =>
      M.pure (dictSetP (dictSetP (dictSetP payload
        "ioc_source" (PVal.v (SVal.s basename)))
        "ioc_list" (PVal.v (SVal.l ioc_list)))
        "ioc_type" (PVal.v ioctype))
    else M.pure payload) fun payload =>
  M.bind (M.lift (product_arg_builder args)) fun pa =>
  M.pure (dictSetP payload "product_args" (PVal.d pa))

/-- `build_survey` up to but excluding the final pruning comprehension:
copy loop, precondition checks, logger call, resolution phase. -/
def build_survey_pre (fs : FS) (args : PyArgs) (edr : String) :
    M (List (String × PVal)) :=
  let survey_payload := copy_args_into_payload survey_defaults args
  M.bind (bs_validate fs args edr) fun _ =>
  M.bind (bs_logger args) fun _ =>
  bs_resolve fs args survey_payload

/-- `build_survey` (`help.py` lines 165-255): the pre-pruning payload
followed by the final comprehension
`{k: v for k, v in survey_payload.items() if v != None}` (line 254). -/
def build_survey (fs : FS) (args : PyArgs) (edr : String) :
    M (List (String × PVal)) :=
  M.bind (build_survey_pre fs args edr) fun payload =>
  M.pure (payload.filter (fun kv => kv.2 != PVal.v SVal.none))

/-- `.lower()` on a Python value: only strings have it. -/
def svalLower (v : SVal) : Except PyErr SVal :=
  match v with
  | SVal.s x => Except.ok (SVal.s x.toLower)
  | _ => Except.error (PyErr.attributeError "lower")

/-- `credential_builder` (`help.py` lines 73-131), transcribed branch by
branch with Python's short-circuit `and` in the line 94 guard.  A
backend id outside the five handled ones falls off the end of the
function, i.e. returns Python `None` (`Except.ok Option.none` here). -/
def credential_builder (args : PyArgs) :
    Except PyErr (Option (List (String × SVal))) := do
  let cbr_creds := [("profile", SVal.s "default")]
  let cbc_creds := [("profile", SVal.s "default")]
  let cortex_creds := [("profile", SVal.s ""), ("auth_type", SVal.s "standard"),
    ("tenant_ids", SVal.l []), ("creds_file", SVal.s "")]
  let dfe_creds := [("profile", SVal.s ""), ("creds_file", SVal.s "")]
  let s1_creds := [("profile", SVal.s ""), ("site_ids", SVal.l []),
    ("account_ids", SVal.l []), ("account_names", SVal.l []),
    ("creds_file", SVal.s "")]
  let edr ← getattrE args "edr"
  if edr = SVal.s "cbc" then do
    let profile ← getattrE args "profile"
    let cbc2 := if profile.truthy then dictSetS cbc_creds "profile" profile
      else cbc_creds
    Except.ok (some cbc2)
  else if edr = SVal.s "cbr" then do
    let profile ← getattrE args "profile"
    let cbr2 := if profile.truthy then dictSetS cbr_creds "profile" profile
      else cbr_creds
    Except.ok (some cbr2)
  else do
    let creds ← getattrE args "creds"
    let cp ← if creds.truthy then getattrE args "profile" else Except.ok creds
    if !cp.truthy &&
        (edr = SVal.s "cortex" || edr = SVal.s "dfe" || edr = SVal.s "s1") then
      Except.error (PyErr.systemExit
        "Cortex, S1, and DFE need to be passed the location to a credentials file, and a profile")
    else if edr = SVal.s "cortex" then do
      let profile ← getattrE args "profile"
      let cortex1 := dictSetS (dictSetS cortex_creds "profile" profile)
        "creds_file" creds
      let auth_type ← getattrE args "auth_type"
      let cortex2 ← if auth_type.truthy then do
          let low ← svalLower auth_type
          Except.ok (dictSetS cortex1 "auth_type" low)
        else Except.ok cortex1
      let tenant_ids ← getattrE args "tenant_ids"
      let cortex3 := if tenant_ids.truthy then
          dictSetS cortex2 "tenant_ids" tenant_ids
        else cortex2
      Except.ok (some cortex3)
    else if edr = SVal.s "dfe" then do
      let profile ← getattrE args "profile"
      Except.ok (some (dictSetS (dictSetS dfe_creds "profile" profile)
        "creds_file" creds))
    else if edr = SVal.s "s1" then do
      let profile ← getattrE args "profile"
      let s1a := dictSetS (dictSetS s1_creds "profile" profile) "creds_file" creds
      let site_ids ← getattrE args "site_ids"
      let s1b := if site_ids.truthy then dictSetS s1a "site_ids" site_ids else s1a
      let account_ids ← getattrE args "account_ids"
      let s1c := if account_ids.truthy then dictSetS s1b "account_ids" account_ids
        else s1b
      let account_names ← getattrE args "account_names"
      let s1d := if account_names.truthy then
          dictSetS s1c "account_names" account_names
        else s1c
      Except.ok (some s1d)
    else
      Except.ok Option.none

/-- A computation performs no filesystem writes: running it from any
trace leaves the write-effect subsequence of the trace unchanged. -/
def NoW {α : Type} (m : M α) : Prop :=
  ∀ t, ((m t).2).filter FSEffect.isWrite = t.filter FSEffect.isWrite

/-- An empty filesystem snapshot. -/
def fs1 : FS :=
  { files := [], dirs := [], walk := fun _ => [], readLines := fun _ => [] }

/-- A minimal accepted option set: backend "cbc", a log directory, and
every other option left at its falsy argparse default.  The namespace has
exactly the attributes the module's dominant spelling uses (in particular
`iocfile`, not `ioc_file`). -/
def args1 : PyArgs :=
  [("edr", SVal.s "cbc"), ("prefix", SVal.none), ("days", SVal.none),
   ("minutes", SVal.none), ("limit", SVal.none), ("hostname", SVal.none),
   ("username", SVal.none), ("query", SVal.none), ("output", SVal.none),
   ("no_file", SVal.b true), ("no_progress", SVal.b false),
   ("log_dir", SVal.s "logs"), ("iocfile", SVal.none), ("ioctype", SVal.none),
   ("deffile", SVal.none), ("defdir", SVal.none), ("sigmarule", SVal.none),
   ("sigmadir", SVal.none), ("dv", SVal.b false),
   ("device_group", SVal.none), ("device_policy", SVal.none),
   ("sensor_group", SVal.none), ("profile", SVal.none), ("creds", SVal.none),
   ("auth_type", SVal.none), ("tenant_ids", SVal.l []),
   ("site_ids", SVal.l []), ("account_ids", SVal.l []),
   ("account_names", SVal.l [])]

/-- Like `args1`, but supplying an IOC file path (which does not exist in
`fs1`) together with an IOC type. -/
def args7 : PyArgs :=
  [("edr", SVal.s "cbc"), ("prefix", SVal.none), ("days", SVal.none),
   ("minutes", SVal.none), ("limit", SVal.none), ("hostname", SVal.none),
   ("username", SVal.none), ("query", SVal.none), ("output", SVal.none),
   ("no_file", SVal.b true), ("no_progress", SVal.b false),
   ("log_dir", SVal.s "logs"), ("iocfile", SVal.s "/tmp/iocs.txt"),
   ("ioctype", SVal.s "ipaddr"), ("deffile", SVal.none), ("defdir", SVal.none),
   ("sigmarule", SVal.none), ("sigmadir", SVal.none), ("dv", SVal.b false),
   ("device_group", SVal.none), ("device_policy", SVal.none),
   ("sensor_group", SVal.none), ("profile", SVal.none), ("creds", SVal.none),
   ("auth_type", SVal.none), ("tenant_ids", SVal.l []),
   ("site_ids", SVal.l []), ("account_ids", SVal.l []),
   ("account_names", SVal.l [])]

/-- The specification `build_survey fs1 args1 "cbc"` returns. -/
def payload1 : List (String × PVal) :=
  [("no_file", PVal.v (SVal.b true)), ("no_progress", PVal.v (SVal.b false)),
   ("log_dir", PVal.v (SVal.s "logs")), ("output_format", PVal.v (SVal.s "csv")),
   ("product_args", PVal.d [])]

/-- The pre-pruning payload of `build_survey_pre fs1 args1 "cbc"`. -/
def pre_payload1 : List (String × PVal) :=
  [("no_file", PVal.v (SVal.b true)), ("no_progress", PVal.v (SVal.b false)),
   ("log_dir", PVal.v (SVal.s "logs")), ("log", PVal.v SVal.none),
   ("ioc_list", PVal.v SVal.none), ("ioc_source", PVal.v SVal.none),
   ("ioc_type", PVal.v SVal.none), ("definitions", PVal.v SVal.none),
   ("sigma_rules", PVal.v SVal.none), ("products_args", PVal.v SVal.none),
   ("output_format", PVal.v (SVal.s "csv")), ("prefix", PVal.v SVal.none),
   ("days", PVal.v SVal.none), ("minutes", PVal.v SVal.none),
   ("limit", PVal.v SVal.none), ("hostname", PVal.v SVal.none),
   ("username", PVal.v SVal.none), ("query", PVal.v SVal.none),
   ("output", PVal.v SVal.none), ("product_args", PVal.d [])]

/-- The effect trace of `build_survey fs1 args1 "cbc"`: exactly the
logger's directory and log-file creation. -/
def trace1 : List FSEffect :=
  [FSEffect.makedirs "logs", FSEffect.createLogFile "logs" (SVal.s "cbc")]

/-- A truthy Python value is not `None`. -/
theorem SVal.bne_none_of_truthy {v : SVal} (h : v.truthy = true) :
    (v != SVal.none) = true := by
  cases v <;> simp_all [SVal.truthy]

/-- Reduction of an `Except` bind whose first step succeeded. -/
theorem bind_ok {α β : Type} (a : α) (f : α → Except PyErr β) :
    (Except.ok a : Except PyErr α) >>= f = f a := rfl

/-- Reduction of an `Except` bind whose first step raised. -/
theorem bind_err {α β : Type} (e : PyErr) (f : α → Except PyErr β) :
    (Except.error e : Except PyErr α) >>= f = Except.error e := rfl

/-- `M.pure` performs no writes. -/
theorem now_pure {α : Type} (a : α) : NoW (M.pure a) := fun _ => rfl

/-- `M.exit` performs no writes. -/
theorem now_exit {α : Type} (msg : String) : NoW (M.exit msg : M α) :=
  fun _ => rfl

/-- `M.throw` performs no writes. -/
theorem now_throw {α : Type} (e : PyErr) : NoW (M.throw e : M α) :=
  fun _ => rfl

/-- `M.lift` performs no writes. -/
theorem now_lift {α : Type} (x : Except PyErr α) : NoW (M.lift x) :=
  fun _ => rfl

/-- Attribute access performs no writes. -/
theorem now_getattr (args : PyArgs) (n : String) : NoW (getattrM args n) :=
  fun _ => rfl

/-- `asStr` performs no writes. -/
theorem now_asStr (v : SVal) : NoW (asStr v) := by
  cases v <;> exact fun _ => rfl

/-- `os.path.isfile` only reads. -/
theorem now_isfile (fs : FS) (p : String) : NoW (os_path_isfile fs p) := by
  intro t
  show ((t ++ [FSEffect.isFileCheck p]).filter FSEffect.isWrite) = _
  simp [List.filter_append, FSEffect.isWrite]

/-- `os.path.isdir` only reads. -/
theorem now_isdir (fs : FS) (p : String) : NoW (os_path_isdir fs p) := by
  intro t
  show ((t ++ [FSEffect.isDirCheck p]).filter FSEffect.isWrite) = _
  simp [List.filter_append, FSEffect.isWrite]

/-- `os.path.exists` only reads. -/
theorem now_exists (fs : FS) (p : String) : NoW (os_path_exists fs p) := by
  intro t
  show ((t ++ [FSEffect.existsCheck p]).filter FSEffect.isWrite) = _
  simp [List.filter_append, FSEffect.isWrite]

/-- `os.walk` only reads. -/
theorem now_walk (fs : FS) (p : String) : NoW (os_walk fs p) := by
  intro t
  show ((t ++ [FSEffect.walkDir p]).filter FSEffect.isWrite) = _
  simp [List.filter_append, FSEffect.isWrite]

/-- Reading a file only reads. -/
theorem now_read (fs : FS) (p : String) : NoW (read_lines fs p) := by
  intro t
  show ((t ++ [FSEffect.readFile p]).filter FSEffect.isWrite) = _
  simp [List.filter_append, FSEffect.isWrite]

/-- A bind of write-free computations is write-free. -/
theorem now_bind {α β : Type} {m : M α} {f : α → M β}
    (h1 : NoW m) (h2 : ∀ a, NoW (f a)) : NoW (M.bind m f) := by
  intro t
  have ht := h1 t
  show ((M.bind m f t).2).filter FSEffect.isWrite = _
  unfold M.bind
  cases hm : m t with
  | mk r t1 =>
    rw [hm] at ht
    cases r with
    | ok a => exact (h2 a t1).trans ht
    | error e => exact ht

/-- A conditional between write-free computations is write-free. -/
theorem now_ite {α : Type} (c : Prop) [Decidable c] {m1 m2 : M α}
    (h1 : NoW m1) (h2 : NoW m2) : NoW (if c then m1 else m2) := by
  split
  · exact h1
  · exact h2

/-- The precondition phase of `build_survey` performs no writes: all its
filesystem activity is `isfile`/`isdir` probing. -/
theorem now_validate (fs : FS) (args : PyArgs) (edr : String) :
    NoW (bs_validate fs args edr) := by
  unfold bs_validate
  apply now_bind (now_getattr _ _); intro iocfile
  apply now_bind (now_ite _
    (now_bind (now_getattr _ _) fun _ => now_pure _) (now_pure _)); intro c1
  apply now_bind (now_ite _ (now_exit _) (now_pure _)); intro _
  apply now_bind (now_ite _
    (now_bind (now_getattr _ _) fun _ => now_bind (now_asStr _) fun _ =>
      now_bind (now_isfile _ _) fun _ => now_pure _)
    (now_pure _)); intro c2
  apply now_bind (now_ite _ (now_exit _) (now_pure _)); intro _
  apply now_bind (now_getattr _ _); intro output
  apply now_bind (now_ite _ (now_pure _)
    (now_bind (now_getattr _ _) fun _ => now_pure _)); intro op
  apply now_bind (now_ite _
    (now_bind (now_getattr _ _) fun _ => now_pure _) (now_pure _)); intro c3
  apply now_bind (now_ite _ (now_exit _) (now_pure _)); intro _
  apply now_bind (now_getattr _ _); intro days
  apply now_bind (now_ite _
    (now_bind (now_getattr _ _) fun _ => now_pure _) (now_pure _)); intro c4
  apply now_bind (now_ite _ (now_exit _) (now_pure _)); intro _
  apply now_bind (now_getattr _ _); intro sigmarule
  apply now_bind (now_ite _ (now_pure _)
    (now_bind (now_getattr _ _) fun _ => now_pure _)); intro sr
  apply now_bind (now_ite _ (now_exit _) (now_pure _)); intro _
  apply now_bind (now_ite _
    (now_bind (now_getattr _ _) fun _ => now_pure _) (now_pure _)); intro c6
  apply now_bind (now_ite _ (now_exit _) (now_pure _)); intro _
  apply now_bind (now_ite _
    (now_bind (now_asStr _) fun _ => now_bind (now_isfile _ _) fun _ =>
      now_pure _)
    (now_pure _)); intro c7
  apply now_bind (now_ite _ (now_exit _) (now_pure _)); intro _
  apply now_bind (now_getattr _ _); intro sigmadir
  apply now_bind (now_ite _
    (now_bind (now_asStr _) fun _ => now_bind (now_isdir _ _) fun _ =>
      now_pure _)
    (now_pure _)); intro c8
  exact now_ite _ (now_exit _) (now_pure _)

/-- The resolution phase of `build_survey` performs no writes: it only
probes paths, walks directories, and reads the IOC file. -/
theorem now_resolve (fs : FS) (args : PyArgs) (payload0 : List (String × PVal)) :
    NoW (bs_resolve fs args payload0) := by
  unfold bs_resolve
  apply now_bind (now_getattr _ _); intro deffile
  apply now_bind (now_ite _
    (now_bind (now_asStr _) fun _ => now_bind (now_exists _ _) fun _ =>
      now_ite _ (now_pure _)
        (now_bind (now_isfile _ _) fun _ =>
          now_ite _ (now_pure _) (now_exit _)))
    (now_pure _)); intro definition_files
  apply now_bind (now_getattr _ _); intro defdir
  apply now_bind (now_ite _
    (now_bind (now_asStr _) fun _ => now_bind (now_exists _ _) fun _ =>
      now_ite _ (now_bind (now_walk _ _) fun _ => now_pure _) (now_exit _))
    (now_pure _)); intro definition_files2
  apply now_bind (now_getattr _ _); intro sigmarule
  apply now_bind (now_ite _
    (now_bind (now_asStr _) fun _ => now_pure _) (now_pure _)); intro sigma_rules
  apply now_bind (now_getattr _ _); intro sigmadir
  apply now_bind (now_ite _
    (now_bind (now_asStr _) fun _ => now_bind (now_walk _ _) fun _ =>
      now_pure _)
    (now_pure _)); intro sigma_rules2
  apply now_bind (now_getattr _ _); intro iocfile
  apply now_bind (now_ite _
    (now_bind (now_asStr _) fun _ => now_bind (now_read _ _) fun _ =>
      now_bind (now_getattr _ _) fun _ => now_pure _)
    (now_pure _)); intro payload
  apply now_bind (now_lift _); intro pa
  exact now_pure _

/-- The writes of `logger`: none if `logs_dir` is not a string (then
`os.makedirs` raises), otherwise exactly the directory creation followed
by the log-file creation. -/
theorem logger_trace (edr logs_dir : SVal) (t : List FSEffect) :
    ((logger edr logs_dir t).2).filter FSEffect.isWrite =
      t.filter FSEffect.isWrite ∨
    ∃ d, logs_dir = SVal.s d ∧
      ((logger edr logs_dir t).2).filter FSEffect.isWrite =
        t.filter FSEffect.isWrite ++
          [FSEffect.makedirs d, FSEffect.createLogFile d edr] := by
  cases logs_dir with
  | s d =>
    right
    exact ⟨d, rfl, by simp [logger, List.filter_append, FSEffect.isWrite]⟩
  | l xs => exact Or.inl rfl
  | b x => exact Or.inl rfl
  | i n => exact Or.inl rfl
  | none => exact Or.inl rfl

/-- The writes of the `logger` call inside `build_survey`: none (when an
attribute is missing or the log directory is not a string), or exactly
the directory creation and log-file creation pair. -/
theorem bs_logger_trace (args : PyArgs) (t : List FSEffect) :
    (((bs_logger args) t).2).filter FSEffect.isWrite =
      t.filter FSEffect.isWrite ∨
    ∃ d e, (((bs_logger args) t).2).filter FSEffect.isWrite =
      t.filter FSEffect.isWrite ++
        [FSEffect.makedirs d, FSEffect.createLogFile d e] := by
  cases h1 : args.lookup "edr" with
  | none =>
    left
    simp [bs_logger, M.bind, getattrM, M.lift, getattrE, h1]
  | some e =>
    cases h2 : args.lookup "log_dir" with
    | none =>
      left
      simp [bs_logger, M.bind, getattrM, M.lift, getattrE, h1, h2]
    | some d =>
      have hb : (bs_logger args) t = (logger e d) t := by
        simp [bs_logger, M.bind, getattrM, M.lift, getattrE, h1, h2]
      rcases logger_trace e d t with h | ⟨s, _, h⟩
      · left
        rw [hb, h]
      · right
        exact ⟨s, e, by rw [hb, h]⟩

/-- The write effects of `build_survey_pre` from an empty trace: nothing,
or exactly the logger's directory-creation/log-file pair. -/
theorem pre_trace (fs : FS) (args : PyArgs) (edr : String) :
    (((build_survey_pre fs args edr) []).2).filter FSEffect.isWrite = [] ∨
    ∃ d e, (((build_survey_pre fs args edr) []).2).filter FSEffect.isWrite =
      [FSEffect.makedirs d, FSEffect.createLogFile d e] := by
  cases hval : bs_validate fs args edr [] with
  | mk rv tv =>
    have hvf : tv.filter FSEffect.isWrite = [] := by
      have hnw := now_validate fs args edr []
      rw [hval] at hnw
      simpa using hnw
    cases rv with
    | error e0 =>
      have heq : (build_survey_pre fs args edr) [] = (Except.error e0, tv) := by
        simp [build_survey_pre, M.bind, hval]
      rw [heq]
      exact Or.inl hvf
    | ok u =>
      cases hlog : bs_logger args tv with
      | mk rl tl =>
        have hlt := bs_logger_trace args tv
        rw [hlog] at hlt
        cases rl with
        | error e0 =>
          have heq : (build_survey_pre fs args edr) [] = (Except.error e0, tl) := by
            simp [build_survey_pre, M.bind, hval, hlog]
          rw [heq]
          rcases hlt with h | ⟨d, e1, h⟩
          · exact Or.inl (by rw [h, hvf])
          · exact Or.inr ⟨d, e1, by rw [h, hvf]; simp⟩
        | ok u2 =>
          cases hres : bs_resolve fs args
              (copy_args_into_payload survey_defaults args) tl with
          | mk rr tr =>
            have hrf : tr.filter FSEffect.isWrite =
                tl.filter FSEffect.isWrite := by
              have hnw := now_resolve fs args
                (copy_args_into_payload survey_defaults args) tl
              rw [hres] at hnw
              simpa using hnw
            have heq : (build_survey_pre fs args edr) [] = (rr, tr) := by
              simp [build_survey_pre, M.bind, hval, hlog, hres]
            rw [heq]
            rcases hlt with h | ⟨d, e1, h⟩
            · exact Or.inl (by rw [hrf, h, hvf])
            · exact Or.inr ⟨d, e1, by rw [hrf, h, hvf]; simp⟩

/-- Running `build_survey` only adds the final pure pruning step on top of
`build_survey_pre`. -/
theorem build_survey_run (fs : FS) (args : PyArgs) (edr : String)
    (t0 : List FSEffect) :
    (build_survey fs args edr) t0 =
      match (build_survey_pre fs args edr) t0 with
      | (Except.ok a, t1) =>
          (Except.ok (a.filter (fun kv => kv.2 != PVal.v SVal.none)), t1)
      | (Except.error e, t1) => (Except.error e, t1) := by
  show M.bind _ _ t0 = _
  unfold M.bind
  cases (build_survey_pre fs args edr) t0 with
  | mk r t1 => cases r <;> rfl

/-- Claim C8 counterexample: on the accepted option set `args1` the core
does write — the run's effect trace contains the creation of the log
directory and of a log file inside it (from the `logger` call on
`help.py` line 196 / lines 269-276). -/
theorem c8_counterexample :
    ((build_survey fs1 args1 "cbc") []).1 = Except.ok payload1 ∧
    ((build_survey fs1 args1 "cbc") []).2.filter FSEffect.isWrite =
      [FSEffect.makedirs "logs", FSEffect.createLogFile "logs" (SVal.s "cbc")] := by
  exact ⟨by decide, by decide⟩

/-- Claim C8 (amended): the only filesystem writes `build_survey` can
perform are the logger's — creation of the log directory and of the
timestamped log file inside it; every other filesystem effect of any run
is a read. -/
theorem c8_amended (fs : FS) (args : PyArgs) (edr : String) :
    (((build_survey fs args edr) []).2).filter FSEffect.isWrite = [] ∨
    ∃ d e, (((build_survey fs args edr) []).2).filter FSEffect.isWrite =
      [FSEffect.makedirs d, FSEffect.createLogFile d e] := by
  have htr : ((build_survey fs args edr) []).2 =
      ((build_survey_pre fs args edr) []).2 := by
    rw [build_survey_run]
    cases (build_survey_pre fs args edr) [] with
    | mk r t1 => cases r <;> rfl
  rw [htr]
  exact pre_trace fs args edr

/-- Claim C1 counterexample: `args1` is accepted by `build_survey`, yet
the returned specification carries the key `product_args` with an empty
mapping as value — an empty field is not omitted (line 254 only filters
`None`). -/
theorem c1_counterexample :
    ((build_survey fs1 args1 "cbc") []).1 = Except.ok payload1 ∧
    payload1.lookup "product_args" = some (PVal.d []) ∧
    PVal.isEmptyVal (PVal.d []) = true := by
  exact ⟨by decide, by decide, by decide⟩

/-- Claim C1 (amended): the pruning drops exactly the `None`-valued
fields (empty strings/lists/mappings are retained), and that pruning is
idempotent — filtering the returned specification again changes
nothing. -/
theorem c1_amended (fs : FS) (args : PyArgs) (edr : String)
    (p : List (String × PVal)) (t : List FSEffect)
    (h : (build_survey fs args edr) [] = (Except.ok p, t)) :
    p.filter (fun kv => kv.2 != PVal.v SVal.none) = p := by
  rw [build_survey_run] at h
  cases hpre : (build_survey_pre fs args edr) [] with
  | mk r t1 =>
    rw [hpre] at h
    cases r with
    | error e => exact absurd (congrArg Prod.fst h) (by simp)
    | ok a =>
      have hp : a.filter (fun kv => kv.2 != PVal.v SVal.none) = p := by
        have hfst := congrArg Prod.fst h
        simpa using hfst
      rw [← hp]
      apply List.filter_eq_self.mpr
      intro kv hkv
      exact (List.mem_filter.mp hkv).2

/-- Claim C1 (amended) witness: the concrete returned specification is a
fixed point of the `None`-pruning. -/
theorem c1_amended_witness :
    payload1.filter (fun kv => kv.2 != PVal.v SVal.none) = payload1 :=
  c1_amended fs1 args1 "cbc" payload1 trace1 (by decide)

/-- Claim C9 (confirmed): in every accepted run, each key of the returned
specification maps to a non-`None` value, and every non-`None` entry of
the pre-pruning payload — empty strings, lists, mappings and `False`
included — is retained in the returned specification. -/
theorem c9_implicit (fs : FS) (args : PyArgs) (edr : String)
    (p pre : List (String × PVal)) (t t' : List FSEffect)
    (h : (build_survey fs args edr) [] = (Except.ok p, t))
    (hpre : (build_survey_pre fs args edr) [] = (Except.ok pre, t')) :
    (∀ kv ∈ p, kv.2 ≠ PVal.v SVal.none) ∧
    (∀ kv ∈ pre, kv.2 ≠ PVal.v SVal.none → kv ∈ p) := by
  rw [build_survey_run, hpre] at h
  have hp : pre.filter (fun kv => kv.2 != PVal.v SVal.none) = p := by
    have hfst := congrArg Prod.fst h
    simpa using hfst
  constructor
  · intro kv hkv
    rw [← hp] at hkv
    have hmem := List.of_mem_filter hkv
    simpa using hmem
  · intro kv hkv hne
    rw [← hp]
    exact List.mem_filter.mpr ⟨hkv, by simpa using hne⟩

/-- Claim C9 witness at the concrete accepted run `args1`. -/
theorem c9_implicit_witness :
    (∀ kv ∈ payload1, kv.2 ≠ PVal.v SVal.none) ∧
    (∀ kv ∈ pre_payload1, kv.2 ≠ PVal.v SVal.none → kv ∈ payload1) :=
  c9_implicit fs1 args1 "cbc" payload1 pre_payload1 trace1 trace1
    (by decide) (by decide)

/-- Claim C7: the code is wrong and the claim right.  With an IOC file
supplied that is not an existing file, line 175 evaluates the misspelled
`args.ioc_file` (every other line uses `args.iocfile`), so the run dies
with an `AttributeError` instead of the intended
`sys.exit('Supplied --iocfile is not a file')`. -/
theorem c7_code_bug :
    ((build_survey fs1 args7 "cbc") []).1 =
      Except.error (PyErr.attributeError "ioc_file") ∧
    args7.lookup "iocfile" = some (SVal.s "/tmp/iocs.txt") ∧
    args7.lookup "ioc_file" = Option.none ∧
    fs1.files.contains "/tmp/iocs.txt" = false := by
  exact ⟨by decide, by decide, by decide, by decide⟩

/-- Claim C10 (confirmed): for every backend id outside the five
supported identifiers, `credential_builder` neither exits nor returns a
credential mapping — it falls off the end of the function and returns
`None`. -/
theorem c10_confirmed (args : PyArgs) (e c : SVal)
    (he : args.lookup "edr" = some e)
    (h5 : e ≠ SVal.s "cbc" ∧ e ≠ SVal.s "cbr" ∧ e ≠ SVal.s "cortex" ∧
      e ≠ SVal.s "dfe" ∧ e ≠ SVal.s "s1")
    (hc : args.lookup "creds" = some c)
    (hp : c.truthy = true → (args.lookup "profile").isSome = true) :
    credential_builder args = Except.ok Option.none := by
  obtain ⟨h1, h2, h3, h4, h5'⟩ := h5
  by_cases hct : c.truthy
  · obtain ⟨pv, hpv⟩ := Option.isSome_iff_exists.mp (hp hct)
    simp [credential_builder, getattrE, he, hc, hpv, hct, h1, h2, h3, h4, h5',
      bind_ok]
  · simp [credential_builder, getattrE, he, hc, hct, h1, h2, h3, h4, h5',
      bind_ok]

/-- Claim C10 witness at a concrete unsupported backend id. -/
theorem c10_confirmed_witness :
    credential_builder [("edr", SVal.s "crowdstrike"), ("creds", SVal.none),
      ("profile", SVal.none)] = Except.ok Option.none :=
  c10_confirmed [("edr", SVal.s "crowdstrike"), ("creds", SVal.none),
      ("profile", SVal.none)] (SVal.s "crowdstrike") SVal.none rfl
    (by decide) rfl (by decide)

/-- Claim C4 counterexample: for the backend id "zzz", which is not in the
registry, `check_product_args_structure` raises `KeyError` on its first
statement instead of returning a ValidationResult. -/
theorem c4_counterexample :
    check_product_args_structure "zzz" [] =
      Except.error (PyErr.keyError "zzz") := rfl

/-- Claim C4 (amended): `check_product_args_structure` returns a result
without raising exactly when the backend id is in the registry and either
the supplied spec is empty or the backend declares a (non-`None`)
product-argument list; otherwise it raises (`KeyError` for an unknown
backend, `TypeError` for a `None` argument list with a non-empty spec). -/
theorem c4_amended (edr : String) (pa : List (String × SVal)) :
    (∃ r, check_product_args_structure edr pa = Except.ok r) ↔
      ((EDR_DEETS edr).isSome = true ∧
        (pa = [] ∨ ((EDR_DEETS edr).bind EdrDetails.product_arguments).isSome = true)) := by
  unfold check_product_args_structure
  cases h : EDR_DEETS edr with
  | none => simp [h]
  | some d =>
    cases hpa : pa with
    | nil => simp [h]
    | cons a l =>
      cases hargs : d.product_arguments with
      | none => simp [h, hargs]
      | some req => simp [h, hargs]

/-- Claim C5 counterexample: "cortex" is a registry backend, but with a
non-empty ProductArgumentSpec the check raises `TypeError` (from
`set(None)`) instead of computing the compatible/incompatible sets. -/
theorem c5_counterexample :
    check_product_args_structure "cortex" [("query", SVal.s "x")] =
      Except.error (PyErr.typeError "NoneType object is not iterable") := rfl

/-- Claim C5 (amended): for every registry backend id whose declared
product-argument list is not `None` and every non-empty
ProductArgumentSpec, the check returns `passed` exactly when
`backendRequiredSet ∩ suppliedKeys` is non-empty and populates
`incompatible_arguments` with `backendRequiredSet \ suppliedKeys` exactly
when that difference is non-empty. -/
theorem c5_amended (edr : String) (deets : EdrDetails) (req : List String)
    (pa : List (String × SVal))
    (h1 : EDR_DEETS edr = some deets) (h2 : deets.product_arguments = some req)
    (h3 : pa ≠ []) :
    check_product_args_structure edr pa = Except.ok
      { result := decide (req.toFinset ∩ (pa.map Prod.fst).toFinset).Nonempty,
        edr := deets.full_name,
        required_fields := PARF.fields (some req),
        incompatible_arguments :=
          if (req.toFinset \ (pa.map Prod.fst).toFinset).Nonempty then
            some (req.toFinset \ (pa.map Prod.fst).toFinset)
          else Option.none } := by
  have hne : pa.isEmpty = false := by
    cases pa with
    | nil => exact absurd rfl h3
    | cons a l => rfl
  unfold check_product_args_structure
  rw [h1]
  simp only [hne, h2, Bool.false_eq_true, if_false]
  split <;> split <;> simp_all

/-- Claim C5 (amended) witness: backend "cbc" with only `device_group`
supplied passes, and `device_policy` is reported as incompatible. -/
theorem c5_amended_witness :
    check_product_args_structure "cbc" [("device_group", SVal.s "g")] = Except.ok
      { result := true, edr := "VMware Carbon Black Cloud Enterprise EDR (CBC)",
        required_fields := PARF.fields (some ["device_group", "device_policy"]),
        incompatible_arguments := some {"device_policy"} } := by
  have h := c5_amended "cbc" _ ["device_group", "device_policy"]
    [("device_group", SVal.s "g")] rfl rfl (by decide)
  rw [h]
  decide

/-- Claim C6 counterexample: for backend "dfe", which declares no
product-argument names, a truthy sensor-group flag is nevertheless
returned by `product_arg_builder` — backend-irrelevant flags are not
dropped for non-"cbc" backends. -/
theorem c6_counterexample :
    product_arg_builder
        [("edr", SVal.s "dfe"), ("device_group", SVal.none),
         ("device_policy", SVal.none), ("sensor_group", SVal.l ["grp1"]),
         ("dv", SVal.b false)] =
      Except.ok [("sensor_group", SVal.l ["grp1"])] ∧
    (EDR_DEETS "dfe").bind EdrDetails.product_arguments = Option.none := by
  constructor
  · rfl
  · rfl

/-- Claim C6 (amended): `product_arg_builder` returns only truthy
(non-empty) entries, but backend relevance is enforced only for the
"cbc" backend: for every other backend id a truthy sensor-group flag is
returned as-is, regardless of whether the backend declares it. -/
theorem c6_amended (args : PyArgs) (r : List (String × SVal))
    (h : product_arg_builder args = Except.ok r) :
    (∀ kv ∈ r, kv.2.truthy = true) ∧
    (∀ e sg, args.lookup "edr" = some e → e ≠ SVal.s "cbc" →
      args.lookup "sensor_group" = some sg → sg.truthy = true →
      r = [("sensor_group", sg)]) := by
  cases hedr : args.lookup "edr" with
  | none =>
    rw [show product_arg_builder args = Except.error (PyErr.attributeError "edr") by
      simp [product_arg_builder, getattrE, hedr, bind_err]] at h
    exact Except.noConfusion h
  | some e =>
    by_cases hcbc : e = SVal.s "cbc"
    · subst hcbc
      have hvac : ∀ e' sg, (some (SVal.s "cbc") : Option SVal) = some e' →
          e' ≠ SVal.s "cbc" → args.lookup "sensor_group" = some sg →
          sg.truthy = true → r = [("sensor_group", sg)] := by
        intro e' sg h1 hne _ _
        exact absurd (Option.some_injective _ h1).symm hne
      cases hdg : args.lookup "device_group" with
      | none =>
        rw [show product_arg_builder args =
            Except.error (PyErr.attributeError "device_group") by
          simp [product_arg_builder, getattrE, hedr, hdg, bind_ok, bind_err]] at h
        exact Except.noConfusion h
      | some dg =>
        cases hdp : args.lookup "device_policy" with
        | none =>
          rw [show product_arg_builder args =
              Except.error (PyErr.attributeError "device_policy") by
            simp [product_arg_builder, getattrE, hedr, hdg, hdp, bind_ok, bind_err]] at h
          exact Except.noConfusion h
        | some dp =>
          by_cases hdgt : dg.truthy <;> by_cases hdpt : dp.truthy
          · rw [show product_arg_builder args =
                Except.ok [("device_group", dg), ("device_policy", dp)] by
              simp [product_arg_builder, getattrE, hedr, hdg, hdp, hdgt, hdpt,
                bind_ok, dictSetS, SVal.bne_none_of_truthy hdgt,
                SVal.bne_none_of_truthy hdpt]] at h
            injection h with h
            subst h
            refine ⟨?_, hvac⟩
            intro kv hkv
            simp only [List.mem_cons, List.not_mem_nil, or_false] at hkv
            rcases hkv with rfl | rfl
            · exact hdgt
            · exact hdpt
          · rw [show product_arg_builder args = Except.ok [("device_group", dg)] by
              simp [product_arg_builder, getattrE, hedr, hdg, hdp, hdgt, hdpt,
                bind_ok, dictSetS, SVal.bne_none_of_truthy hdgt]] at h
            injection h with h
            subst h
            refine ⟨?_, hvac⟩
            intro kv hkv
            simp only [List.mem_cons, List.not_mem_nil, or_false] at hkv
            subst hkv
            exact hdgt
          · rw [show product_arg_builder args = Except.ok [("device_policy", dp)] by
              simp [product_arg_builder, getattrE, hedr, hdg, hdp, hdgt, hdpt,
                bind_ok, dictSetS, SVal.bne_none_of_truthy hdpt]] at h
            injection h with h
            subst h
            refine ⟨?_, hvac⟩
            intro kv hkv
            simp only [List.mem_cons, List.not_mem_nil, or_false] at hkv
            subst hkv
            exact hdpt
          · rw [show product_arg_builder args = Except.ok [] by
              simp [product_arg_builder, getattrE, hedr, hdg, hdp, hdgt, hdpt,
                bind_ok, dictSetS]] at h
            injection h with h
            subst h
            exact ⟨fun kv hkv => absurd hkv (List.not_mem_nil kv), hvac⟩
    · cases hsg : args.lookup "sensor_group" with
      | none =>
        rw [show product_arg_builder args =
            Except.error (PyErr.attributeError "sensor_group") by
          simp [product_arg_builder, getattrE, hedr, hcbc, hsg, bind_ok, bind_err]] at h
        exact Except.noConfusion h
      | some sg =>
        by_cases hsgt : sg.truthy
        · rw [show product_arg_builder args = Except.ok [("sensor_group", sg)] by
            simp [product_arg_builder, getattrE, hedr, hcbc, hsg, hsgt, bind_ok,
              dictSetS, SVal.bne_none_of_truthy hsgt]] at h
          injection h with h
          subst h
          constructor
          · intro kv hkv
            simp only [List.mem_cons, List.not_mem_nil, or_false] at hkv
            subst hkv
            exact hsgt
          · intro e' sg' h1 hne h3 h4
            exact congrArg (fun x => [("sensor_group", x)])
              (Option.some_injective _ h3)
        · have hvac2 : ∀ e' sg', (some e : Option SVal) = some e' →
              e' ≠ SVal.s "cbc" → (some sg : Option SVal) = some sg' →
              sg'.truthy = true → r = [("sensor_group", sg')] := by
            intro e' sg' h1 hne h3 h4
            rw [← Option.some_injective _ h3] at h4
            exact absurd h4 hsgt
          cases hdv : args.lookup "dv" with
          | none =>
            rw [show product_arg_builder args =
                Except.error (PyErr.attributeError "dv") by
              simp [product_arg_builder, getattrE, hedr, hcbc, hsg, hsgt, hdv,
                bind_ok, bind_err]] at h
            exact Except.noConfusion h
          | some dv =>
            by_cases hdvt : dv.truthy
            · rw [show product_arg_builder args =
                  Except.ok [("deep_visibility", SVal.b true)] by
                simp [product_arg_builder, getattrE, hedr, hcbc, hsg, hsgt, hdv,
                  hdvt, bind_ok, dictSetS]] at h
              injection h with h
              subst h
              refine ⟨?_, hvac2⟩
              intro kv hkv
              simp only [List.mem_cons, List.not_mem_nil, or_false] at hkv
              subst hkv
              rfl
            · rw [show product_arg_builder args = Except.ok [] by
                simp [product_arg_builder, getattrE, hedr, hcbc, hsg, hsgt, hdv,
                  hdvt, bind_ok, dictSetS]] at h
              injection h with h
              subst h
              exact ⟨fun kv hkv => absurd hkv (List.not_mem_nil kv), hvac2⟩

/-- Claim C6 (amended) witness at the counterexample input: the single
returned entry is truthy, and its non-"cbc" backend gets the sensor-group
flag returned verbatim. -/
theorem c6_amended_witness :
    (∀ kv ∈ [("sensor_group", SVal.l ["grp1"])], (kv.2).truthy = true) ∧
    (∀ e sg,
      ([("edr", SVal.s "dfe"), ("device_group", SVal.none),
        ("device_policy", SVal.none), ("sensor_group", SVal.l ["grp1"]),
        ("dv", SVal.b false)] : PyArgs).lookup "edr" = some e →
      e ≠ SVal.s "cbc" →
      ([("edr", SVal.s "dfe"), ("device_group", SVal.none),
        ("device_policy", SVal.none), ("sensor_group", SVal.l ["grp1"]),
        ("dv", SVal.b false)] : PyArgs).lookup "sensor_group" = some sg →
      sg.truthy = true →
      [("sensor_group", SVal.l ["grp1"])] = [("sensor_group", sg)]) :=
  c6_amended
    [("edr", SVal.s "dfe"), ("device_group", SVal.none),
     ("device_policy", SVal.none), ("sensor_group", SVal.l ["grp1"]),
     ("dv", SVal.b false)]
    [("sensor_group", SVal.l ["grp1"])] (by decide)

/-- Claim C2 counterexample: the backend id "zzz" is not in the registry,
yet a CredentialSpec supplying both a truthy `creds_file` and a truthy
`profile` makes `check_credentials_structure` return `result = true` with
a remediation string — not the failed unsupported-backend result the claim
asserts for every CredentialSpec. -/
theorem c2_counterexample :
    EDR_DEETS "zzz" = Option.none ∧
      check_credentials_structure "zzz"
        [("creds_file", SVal.s "/tmp/c"), ("profile", SVal.s "x")] =
      { result := true, edr := "zzz",
        required_fields := some "A profile and path to a credentials file argument have been supplied" } :=
  ⟨rfl, rfl⟩

/-- Claim C2 (amended): for every backend id not in the registry and every
CredentialSpec that does not contain both a truthy `creds_file` and a
truthy `profile`, `check_credentials_structure` returns `result = false`,
`required_fields = None`, and a label stating the backend is
unsupported. -/
theorem c2_amended (edr : String) (creds : List (String × SVal))
    (h1 : EDR_DEETS edr = Option.none)
    (h2 : ¬("creds_file" ∈ cred_check creds ∧ "profile" ∈ cred_check creds)) :
    check_credentials_structure edr creds =
      { result := false, edr := edr ++ " is not a supported EDR",
        required_fields := Option.none } := by
  have hcbc : ¬ edr = "cbc" := by rintro rfl; simp [EDR_DEETS] at h1
  have hcbr : ¬ edr = "cbr" := by rintro rfl; simp [EDR_DEETS] at h1
  have hcortex : ¬ edr = "cortex" := by rintro rfl; simp [EDR_DEETS] at h1
  have hdfe : ¬ edr = "dfe" := by rintro rfl; simp [EDR_DEETS] at h1
  have hs1 : ¬ edr = "s1" := by rintro rfl; simp [EDR_DEETS] at h1
  simp [check_credentials_structure, hcbc, hcbr, hcortex, hdfe, hs1, h1]
  tauto

/-- Claim C2 (amended) witness at a concrete unsupported backend. -/
theorem c2_amended_witness :
    check_credentials_structure "zzz" [("token", SVal.s "t")] =
      { result := false, edr := "zzz is not a supported EDR",
        required_fields := Option.none } :=
  c2_amended "zzz" [("token", SVal.s "t")] rfl (by decide)

/-- Claim C3 (confirmed): for every backend id, a CredentialSpec whose
truthy fields include both `creds_file` and `profile` makes
`check_credentials_structure` return `result = true`, regardless of any
other fields present. -/
theorem c3_confirmed (edr : String) (creds : List (String × SVal))
    (h1 : (cred_check creds).contains "creds_file" = true)
    (h2 : (cred_check creds).contains "profile" = true) :
    (check_credentials_structure edr creds).result = true := by
  unfold check_credentials_structure
  simp only [h1, h2, Bool.and_true]
  split <;> rfl

/-- Claim C3 witness at the specification's own example: backend "dfe"
with a credentials file and profile passes. -/
theorem c3_confirmed_witness :
    (check_credentials_structure "dfe"
      [("creds_file", SVal.s "/tmp/c"), ("profile", SVal.s "x")]).result = true :=
  c3_confirmed "dfe" [("creds_file", SVal.s "/tmp/c"), ("profile", SVal.s "x")] rfl rfl

end Surveyor
